import Mathlib

set_option maxRecDepth 100000

/-!
Shallow embedding of the Advanced Weather App (src/src/App.tsx).

The application is a single React component holding its state in seven
`useState` hooks: city search text, current weather, forecast, loading flag,
error string, coordinates and dark-mode flag.  The event handlers
(`fetchWeather`, `fetchForecast`, `handleSearch`, the startup geolocation
effect, `toggleDarkMode`) are embedded as state-transition functions.  The
outcome of each HTTP request is supplied by the environment as an
`Except Unit _` value; each transition also returns the list of HTTP
requests it issues, in issue order, so that claims about which requests a
handler sends can be stated.  JavaScript numbers are modelled as `Rat`
(no arithmetic is performed on them by the code under verification),
Unix timestamps as `Int`.
-/

namespace WeatherApp

/-- One element of the `weather` array of the API response:
`{ description, icon }` (interface `WeatherData.weather`, App.tsx lines 20-23). -/
structure WeatherCondition where
  description : String
  icon : String
deriving DecidableEq

/-- The `main` object of the current-weather response (App.tsx lines 14-19). -/
structure WeatherMain where
  temp : Rat
  feels_like : Rat
  humidity : Rat
  pressure : Rat
deriving DecidableEq

/-- Interface `WeatherData` (App.tsx lines 12-29); `wind.speed` is flattened to
`wind_speed`. -/
structure WeatherData where
  name : String
  main : WeatherMain
  weather : List WeatherCondition
  wind_speed : Rat
  visibility : Rat
  dt : Int
deriving DecidableEq

/-- The `main` object of one forecast entry (App.tsx lines 34-36). -/
structure ForecastEntryMain where
  temp : Rat
deriving DecidableEq

/-- One element of `ForecastData.list` (App.tsx lines 32-41). -/
structure ForecastEntry where
  dt : Int
  main : ForecastEntryMain
  weather : List WeatherCondition
deriving DecidableEq

/-- Interface `ForecastData` (App.tsx lines 31-42). -/
structure ForecastData where
  list : List ForecastEntry
deriving DecidableEq

/-- One geocoding result `{ lat, lon }` (App.tsx line 112). -/
structure Geo where
  lat : Rat
  lon : Rat
deriving DecidableEq

/-- The seven `useState` hooks of `App` (App.tsx lines 57-63). -/
structure AppState where
  city : String
  weather : Option WeatherData
  forecast : Option ForecastData
  loading : Bool
  error : String
  coords : Option (Rat × Rat)
  darkMode : Bool
deriving DecidableEq

/-- The initial values of the seven hooks: `''`, `null`, `null`, `false`,
`''`, `null`, `false` (App.tsx lines 57-63). -/
def initialState : AppState :=
  { city := "", weather := none, forecast := none, loading := false,
    error := "", coords := none, darkMode := false }

/-- An HTTP request issued by the component, with the query coordinates or
city text it carries. -/
inductive Request where
  | weatherReq (lat lon : Rat)
  | forecastReq (lat lon : Rat)
  | geocodeReq (q : String)
deriving DecidableEq

/-- Embedding of `fetchWeather` (App.tsx lines 84-94): sets loading, clears error, issues
the current-weather request; on success stores the snapshot, on failure sets
the error message; finally clears loading unconditionally. -/
def fetchWeather (lat lon : Rat) (result : Except Unit WeatherData)
    (s : AppState) : AppState × List Request :=
  let s1 := { s with loading := true, error := "" }
  let s2 :=
    match result with
    | Except.ok data => { s1 with weather := some data }
    | Except.error _ =>
        { s1 with error := "Unable to fetch weather data. Please try again." }
  ({ s2 with loading := false }, [Request.weatherReq lat lon])

/-- Embedding of `fetchForecast` (App.tsx lines 96-103): issues the forecast request; on
success stores the snapshot; on failure only logs (`console.error`), leaving
the state untouched. -/
def fetchForecast (lat lon : Rat) (result : Except Unit ForecastData)
    (s : AppState) : AppState × List Request :=
  let s1 :=
    match result with
    | Except.ok data => { s with forecast := some data }
    | Except.error _ => s
  (s1, [Request.forecastReq lat lon])

/-- Outcome of the startup geolocation attempt (App.tsx lines 66-82):
the success callback with a position, the error callback (permission denied
or any other geolocation error), or `navigator.geolocation` being absent. -/
inductive GeoOutcome where
  | success (lat lon : Rat)
  | denied
  | unsupported
deriving DecidableEq

/-- The startup `useEffect` (App.tsx lines 66-82): on a position, store the
coordinates then run `fetchWeather` and `fetchForecast`; on the error
callback or an unsupported browser, set an error message and fetch nothing. -/
def startup (outcome : GeoOutcome) (wres : Except Unit WeatherData)
    (fres : Except Unit ForecastData) (s : AppState) : AppState × List Request :=
  match outcome with
  | GeoOutcome.success lat lon =>
      let s1 := { s with coords := some (lat, lon) }
      let w := fetchWeather lat lon wres s1
      let f := fetchForecast lat lon fres w.1
      (f.1, w.2 ++ f.2)
  | GeoOutcome.denied =>
      ({ s with error := "Unable to retrieve your location. Please search for a city." }, [])
  | GeoOutcome.unsupported =>
      ({ s with error := "Geolocation is not supported by your browser. Please search for a city." }, [])

/-- The responses the environment would give to the requests a search can
issue: the geocoding response (a list of results, or a request failure) and
the two weather responses. -/
structure SearchEnv where
  geoResult : Except Unit (List Geo)
  weatherResult : Except Unit WeatherData
  forecastResult : Except Unit ForecastData

/-- The first two statements of `handleSearch` after `preventDefault`
(App.tsx lines 107-108): set loading, clear error. -/
def startSearch (s : AppState) : AppState :=
  { s with loading := true, error := "" }

/-- The body of `handleSearch` after loading is set and the error cleared
(App.tsx lines 109-122): issue the geocoding request for the city text; on a
non-empty result list store the first result's coordinates, await
`fetchWeather`, then await `fetchForecast`; on an empty list set the
city-not-found message; on a request failure set the generic message; in
every branch finally clear loading (line 122). -/
def handleSearchBody (env : SearchEnv) (cityText : String)
    (s1 : AppState) : AppState × List Request :=
  match env.geoResult with
  | Except.ok (g :: _) =>
      let s2 := { s1 with coords := some (g.lat, g.lon) }
      let w := fetchWeather g.lat g.lon env.weatherResult s2
      let f := fetchForecast g.lat g.lon env.forecastResult w.1
      ({ f.1 with loading := false },
        Request.geocodeReq cityText :: (w.2 ++ f.2))
  | Except.ok [] =>
      ({ s1 with error := "City not found. Please try again.", loading := false },
        [Request.geocodeReq cityText])
  | Except.error _ =>
      ({ s1 with error := "An error occurred. Please try again.", loading := false },
        [Request.geocodeReq cityText])

/-- Embedding of `handleSearch` (App.tsx lines 105-123). -/
def handleSearch (env : SearchEnv) (s : AppState) : AppState × List Request :=
  handleSearchBody env s.city (startSearch s)

/-- Embedding of `toggleDarkMode` (App.tsx lines 125-127). -/
def toggleDarkMode (s : AppState) : AppState :=
  { s with darkMode := !s.darkMode }

/-- The forecast strip's subsampling of `forecast.list`
(App.tsx line 233): `forecast.list.filter((_, index) => index % 8 === 0)`. -/
def forecastStrip (l : List ForecastEntry) : List ForecastEntry :=
  ((l.enum.filter (fun p => p.1 % 8 == 0)).map Prod.snd)

/-!
Ghost instrumentation for the coordinate-consistency invariant: alongside the
component state we record, for the currently stored weather and forecast
snapshots, the coordinates of the fetch that produced them.  The `app`
component of every ghost transition is exactly the corresponding source
transition (proved below), so properties of the ghost runs are properties of
the program's runs.
-/

/-- The component state together with the provenance (query coordinates) of
the stored weather and forecast snapshots. -/
structure GhostState where
  app : AppState
  weatherOrigin : Option (Rat × Rat)
  forecastOrigin : Option (Rat × Rat)
deriving DecidableEq

/-- Ghost initial state: no snapshots, no provenance. -/
def initialGhost : GhostState :=
  { app := initialState, weatherOrigin := none, forecastOrigin := none }

/-- Ghost `fetchWeather` with provenance: when the snapshot is replaced, its origin
becomes the query coordinates. -/
def fetchWeatherG (lat lon : Rat) (result : Except Unit WeatherData)
    (g : GhostState) : GhostState × List Request :=
  let p := fetchWeather lat lon result g.app
  ({ app := p.1,
     weatherOrigin :=
       match result with
       | Except.ok _ => some (lat, lon)
       | Except.error _ => g.weatherOrigin,
     forecastOrigin := g.forecastOrigin }, p.2)

/-- Ghost `fetchForecast` with provenance. -/
def fetchForecastG (lat lon : Rat) (result : Except Unit ForecastData)
    (g : GhostState) : GhostState × List Request :=
  let p := fetchForecast lat lon result g.app
  ({ app := p.1,
     weatherOrigin := g.weatherOrigin,
     forecastOrigin :=
       match result with
       | Except.ok _ => some (lat, lon)
       | Except.error _ => g.forecastOrigin }, p.2)

/-- The startup effect with provenance. -/
def startupG (outcome : GeoOutcome) (wres : Except Unit WeatherData)
    (fres : Except Unit ForecastData) (g : GhostState) : GhostState × List Request :=
  match outcome with
  | GeoOutcome.success lat lon =>
      let g1 := { g with app := { g.app with coords := some (lat, lon) } }
      let w := fetchWeatherG lat lon wres g1
      let f := fetchForecastG lat lon fres w.1
      (f.1, w.2 ++ f.2)
  | GeoOutcome.denied =>
      ({ g with app := (startup GeoOutcome.denied wres fres g.app).1 }, [])
  | GeoOutcome.unsupported =>
      ({ g with app := (startup GeoOutcome.unsupported wres fres g.app).1 }, [])

/-- Ghost `handleSearch` with provenance. -/
def handleSearchG (env : SearchEnv) (g : GhostState) : GhostState × List Request :=
  match env.geoResult with
  | Except.ok (geo :: _) =>
      let g2 := { g with app :=
        { startSearch g.app with coords := some (geo.lat, geo.lon) } }
      let w := fetchWeatherG geo.lat geo.lon env.weatherResult g2
      let f := fetchForecastG geo.lat geo.lon env.forecastResult w.1
      ({ f.1 with app := { f.1.app with loading := false } },
        Request.geocodeReq g.app.city :: (w.2 ++ f.2))
  | Except.ok [] =>
      ({ g with app := (handleSearch env g.app).1 }, [Request.geocodeReq g.app.city])
  | Except.error _ =>
      ({ g with app := (handleSearch env g.app).1 }, [Request.geocodeReq g.app.city])

/-- Coordinate-consistency: whenever coordinates are stored and a weather
(resp. forecast) snapshot is displayed, that snapshot was fetched with
exactly the stored coordinates. -/
def coordsConsistent (g : GhostState) : Bool :=
  match g.app.coords with
  | none => true
  | some c =>
      (!g.app.weather.isSome || decide (g.weatherOrigin = some c)) &&
      (!g.app.forecast.isSome || decide (g.forecastOrigin = some c))

/-- The ghost `fetchWeather` projects to the source `fetchWeather`. -/
theorem fetchWeatherG_app (lat lon : Rat) (r : Except Unit WeatherData)
    (g : GhostState) :
    (fetchWeatherG lat lon r g).1.app = (fetchWeather lat lon r g.app).1 := rfl

/-- The ghost `fetchForecast` projects to the source `fetchForecast`. -/
theorem fetchForecastG_app (lat lon : Rat) (r : Except Unit ForecastData)
    (g : GhostState) :
    (fetchForecastG lat lon r g).1.app = (fetchForecast lat lon r g.app).1 := rfl

/-- The ghost startup transition projects to the source startup transition,
state and request trace alike. -/
theorem startupG_app (o : GeoOutcome) (wres : Except Unit WeatherData)
    (fres : Except Unit ForecastData) (g : GhostState) :
    (startupG o wres fres g).1.app = (startup o wres fres g.app).1 ∧
    (startupG o wres fres g).2 = (startup o wres fres g.app).2 := by
  cases o <;> exact ⟨rfl, rfl⟩

/-- The ghost search transition projects to the source search transition,
state and request trace alike. -/
theorem handleSearchG_app (env : SearchEnv) (g : GhostState) :
    (handleSearchG env g).1.app = (handleSearch env g.app).1 ∧
    (handleSearchG env g).2 = (handleSearch env g.app).2 := by
  obtain ⟨geo, wres, fres⟩ := env
  rcases geo with _ | gl
  · exact ⟨rfl, rfl⟩
  · rcases gl with _ | ⟨hd, tl⟩ <;> exact ⟨rfl, rfl⟩

/-!
Sample data used by concrete witnesses and counterexamples.
-/

/-- A sample condition record. -/
def sampleCond : WeatherCondition := { description := "clear sky", icon := "01d" }

/-- A sample current-weather snapshot. -/
def sampleWeather : WeatherData :=
  { name := "Berlin", main := { temp := 20, feels_like := 19, humidity := 50, pressure := 1013 },
    weather := [sampleCond], wind_speed := 5, visibility := 10000, dt := 1700000000 }

/-- A sample forecast entry. -/
def sampleEntry : ForecastEntry :=
  { dt := 1700000000, main := { temp := 20 }, weather := [sampleCond] }

/-- A sample forecast snapshot. -/
def sampleForecast : ForecastData := { list := [sampleEntry] }

/-- A sample geocoding result (Paris). -/
def geoParis : Geo := { lat := mkRat 4885 100, lon := mkRat 235 100 }

/-!
Claim theorems.
-/

/-- C1, counterexample: the claim says the weather state is null after every
failed `fetchWeather`; but when a snapshot from an earlier successful load is
present, a failed fetch leaves it in place, so the state is not null. -/
theorem c1_failed_fetch_not_null :
    (fetchWeather 1 2 (Except.error ())
      { initialState with weather := some sampleWeather }).1.weather ≠ none := by
  decide

/-- C1 (amended): the weather state is null before the first load; a
successful `fetchWeather` replaces it with the new snapshot; a failed
`fetchWeather` leaves it unchanged (hence null only if no load had yet
succeeded).  Likewise for the forecast state and `fetchForecast`. -/
theorem c1_snapshot_lifecycle (lat lon : Rat) (wres : Except Unit WeatherData)
    (fres : Except Unit ForecastData) (s : AppState) :
    initialState.weather = none ∧ initialState.forecast = none ∧
    (fetchWeather lat lon wres s).1.weather =
      (match wres with
       | Except.ok d => some d
       | Except.error _ => s.weather) ∧
    (fetchForecast lat lon fres s).1.forecast =
      (match fres with
       | Except.ok d => some d
       | Except.error _ => s.forecast) := by
  refine ⟨rfl, rfl, ?_, ?_⟩
  · cases wres <;> rfl
  · cases fres <;> rfl

/-- C2: after a successful current-weather fetch, a failed forecast fetch
changes nothing: the error message is still empty, the freshly fetched
current weather is still displayed, and in fact the whole state is exactly
the post-weather-fetch state. -/
theorem c2_forecast_failure_silent (lat lon : Rat) (wd : WeatherData)
    (s : AppState) :
    (fetchForecast lat lon (Except.error ())
        (fetchWeather lat lon (Except.ok wd) s).1).1.error = "" ∧
    (fetchForecast lat lon (Except.error ())
        (fetchWeather lat lon (Except.ok wd) s).1).1.weather = some wd ∧
    (fetchForecast lat lon (Except.error ())
        (fetchWeather lat lon (Except.ok wd) s).1).1 =
      (fetchWeather lat lon (Except.ok wd) s).1 :=
  ⟨rfl, rfl, rfl⟩

/-- C4: whatever the outcome (geocoding success, zero results, geocoding
failure, or weather-fetch failure — all covered by quantifying over the
environment), `handleSearch` first sets the loading flag and clears the
error (it factors through `startSearch`), and the loading flag is false
once the handler has completed. -/
theorem c4_loading_lifecycle (env : SearchEnv) (s : AppState) :
    (startSearch s).loading = true ∧
    (startSearch s).error = "" ∧
    handleSearch env s = handleSearchBody env s.city (startSearch s) ∧
    (handleSearch env s).1.loading = false := by
  refine ⟨rfl, rfl, rfl, ?_⟩
  obtain ⟨geo, wres, fres⟩ := env
  rcases geo with _ | gl
  · rfl
  · rcases gl with _ | ⟨hd, tl⟩ <;> rfl

/-- C9: toggling dark mode twice is the identity on the whole state, and a
single toggle flips the dark-mode flag while leaving every other state
component (city text, weather, forecast, loading, error, coordinates)
unchanged. -/
theorem c9_dark_mode_involution (s : AppState) :
    toggleDarkMode (toggleDarkMode s) = s ∧
    (toggleDarkMode s).darkMode = !s.darkMode ∧
    (toggleDarkMode s).city = s.city ∧
    (toggleDarkMode s).weather = s.weather ∧
    (toggleDarkMode s).forecast = s.forecast ∧
    (toggleDarkMode s).loading = s.loading ∧
    (toggleDarkMode s).error = s.error ∧
    (toggleDarkMode s).coords = s.coords := by
  refine ⟨?_, rfl, rfl, rfl, rfl, rfl, rfl, rfl⟩
  cases s
  simp [toggleDarkMode]

/-- C10: frame property of `fetchForecast`: on success the resulting state is
the input state with only the forecast snapshot replaced; on failure it is
the input state itself; in particular loading, error, weather, coordinates,
city text and dark mode are unchanged in either outcome. -/
theorem c10_forecast_frame (lat lon : Rat) (res : Except Unit ForecastData)
    (s : AppState) :
    (fetchForecast lat lon res s).1 =
      (match res with
       | Except.ok d => { s with forecast := some d }
       | Except.error _ => s) ∧
    (fetchForecast lat lon res s).1.loading = s.loading ∧
    (fetchForecast lat lon res s).1.error = s.error ∧
    (fetchForecast lat lon res s).1.weather = s.weather ∧
    (fetchForecast lat lon res s).1.coords = s.coords ∧
    (fetchForecast lat lon res s).1.city = s.city ∧
    (fetchForecast lat lon res s).1.darkMode = s.darkMode := by
  cases res <;> exact ⟨rfl, rfl, rfl, rfl, rfl, rfl, rfl⟩

/-- C5: when the geocoding response is an empty result list, the search sets
the city-not-found message and the only request issued is the geocoding
request — no weather and no forecast request. -/
theorem c5_city_not_found (env : SearchEnv) (s : AppState)
    (h : env.geoResult = Except.ok []) :
    (handleSearch env s).1.error = "City not found. Please try again." ∧
    (handleSearch env s).2 = [Request.geocodeReq s.city] := by
  obtain ⟨geo, wres, fres⟩ := env
  simp only at h
  subst h
  exact ⟨rfl, rfl⟩

/-- C5 witness: a concrete search whose geocoding returns zero results. -/
theorem c5_city_not_found_witness :
    (SearchEnv.mk (Except.ok []) (Except.error ()) (Except.error ())).geoResult
        = Except.ok [] ∧
    ((handleSearch (SearchEnv.mk (Except.ok []) (Except.error ()) (Except.error ()))
        initialState).1.error = "City not found. Please try again." ∧
     (handleSearch (SearchEnv.mk (Except.ok []) (Except.error ()) (Except.error ()))
        initialState).2 = [Request.geocodeReq initialState.city]) :=
  ⟨rfl, c5_city_not_found (SearchEnv.mk (Except.ok []) (Except.error ()) (Except.error ()))
    initialState rfl⟩

/-- C6, counterexample: the messages shown for a denied geolocation and for
an unsupported browser are not the same string, refuting "surfaced as the
same human-readable instruction". -/
theorem c6_messages_differ :
    (startup GeoOutcome.denied (Except.error ()) (Except.error ()) initialState).1.error ≠
    (startup GeoOutcome.unsupported (Except.error ()) (Except.error ()) initialState).1.error := by
  decide

/-- The instruction to search manually that both geolocation-failure
messages end with. -/
def manualSearchInstruction : String := "Please search for a city."

/-- C6 (amended): when geolocation is denied and when it is unsupported, the
user is shown a non-empty message — a different one in each case — each
message being a case-specific diagnosis followed by the same instruction to
search manually, and in both cases no request at all is issued. -/
theorem c6_manual_search_instruction (wres : Except Unit WeatherData)
    (fres : Except Unit ForecastData) (s : AppState) :
    (startup GeoOutcome.denied wres fres s).1.error =
      "Unable to retrieve your location. " ++ manualSearchInstruction ∧
    (startup GeoOutcome.denied wres fres s).2 = [] ∧
    (startup GeoOutcome.unsupported wres fres s).1.error =
      "Geolocation is not supported by your browser. " ++ manualSearchInstruction ∧
    (startup GeoOutcome.unsupported wres fres s).2 = [] ∧
    (startup GeoOutcome.denied wres fres s).1.error ≠ "" ∧
    (startup GeoOutcome.unsupported wres fres s).1.error ≠ "" := by
  refine ⟨?_, rfl, ?_, rfl, ?_, ?_⟩
  · show ("Unable to retrieve your location. Please search for a city." : String) =
      "Unable to retrieve your location. " ++ manualSearchInstruction
    decide
  · show ("Geolocation is not supported by your browser. Please search for a city." : String) =
      "Geolocation is not supported by your browser. " ++ manualSearchInstruction
    decide
  · show ("Unable to retrieve your location. Please search for a city." : String) ≠ ""
    decide
  · show ("Geolocation is not supported by your browser. Please search for a city." : String) ≠ ""
    decide

/-- C8: when the geocoding result list starts with a result `g`, the search
issues exactly three requests, in order: the geocoding request, the
current-weather request with `g`'s coordinates, and the forecast request with
the same coordinates — each fetch exactly once; and the resulting state is
the forecast fetch applied to the completed weather fetch's state (the
weather fetch is awaited before the forecast fetch runs). -/
theorem c8_search_fetch_sequence (env : SearchEnv) (s : AppState)
    (g : Geo) (rest : List Geo) (h : env.geoResult = Except.ok (g :: rest)) :
    (handleSearch env s).2 =
      [Request.geocodeReq s.city, Request.weatherReq g.lat g.lon,
       Request.forecastReq g.lat g.lon] ∧
    (handleSearch env s).1 =
      { (fetchForecast g.lat g.lon env.forecastResult
          (fetchWeather g.lat g.lon env.weatherResult
            { startSearch s with coords := some (g.lat, g.lon) }).1).1
        with loading := false } := by
  obtain ⟨geo, wres, fres⟩ := env
  simp only at h
  subst h
  exact ⟨rfl, rfl⟩

/-- C8 witness: a concrete search resolving to Paris. -/
theorem c8_search_fetch_sequence_witness :
    (SearchEnv.mk (Except.ok [geoParis]) (Except.ok sampleWeather)
        (Except.ok sampleForecast)).geoResult = Except.ok (geoParis :: []) ∧
    ((handleSearch (SearchEnv.mk (Except.ok [geoParis]) (Except.ok sampleWeather)
        (Except.ok sampleForecast)) initialState).2 =
      [Request.geocodeReq initialState.city,
       Request.weatherReq geoParis.lat geoParis.lon,
       Request.forecastReq geoParis.lat geoParis.lon] ∧
     (handleSearch (SearchEnv.mk (Except.ok [geoParis]) (Except.ok sampleWeather)
        (Except.ok sampleForecast)) initialState).1 =
      { (fetchForecast geoParis.lat geoParis.lon (Except.ok sampleForecast)
          (fetchWeather geoParis.lat geoParis.lon (Except.ok sampleWeather)
            { startSearch initialState with
                coords := some (geoParis.lat, geoParis.lon) }).1).1
        with loading := false }) :=
  ⟨rfl, c8_search_fetch_sequence
    (SearchEnv.mk (Except.ok [geoParis]) (Except.ok sampleWeather)
      (Except.ok sampleForecast)) initialState geoParis [] rfl⟩

/-- Environment for the C7 counterexample: a search whose geocoding resolves
to Paris but whose weather and forecast fetches fail. -/
def searchEnvParisFail : SearchEnv :=
  { geoResult := Except.ok [geoParis], weatherResult := Except.error (),
    forecastResult := Except.error () }

/-- Ghost state after a successful startup load at (52.5, 13.4). -/
def ghostAfterStartup : GhostState :=
  (startupG (GeoOutcome.success (mkRat 525 10) (mkRat 134 10)) (Except.ok sampleWeather)
    (Except.ok sampleForecast) initialGhost).1

/-- C7, counterexample: after a successful startup load at (52.5, 13.4), a
search that geocodes to Paris but whose weather fetch fails stores the Paris
coordinates while still displaying the weather and forecast snapshots
fetched at (52.5, 13.4) — the consistency invariant is violated after this
transition, so it does not hold after every state transition. -/
theorem c7_inconsistent_after_failed_fetch :
    coordsConsistent (handleSearchG searchEnvParisFail ghostAfterStartup).1 = false := by
  decide

/-- Environment for the C7 witness: a search resolving to Paris where the
geocoding, weather and forecast requests all succeed. -/
def searchEnvParisOk : SearchEnv :=
  { geoResult := Except.ok [geoParis], weatherResult := Except.ok sampleWeather,
    forecastResult := Except.ok sampleForecast }

/-- C7 (amended): the consistency invariant holds after every transition
whose fetches all succeed: after a search whose geocoding returns a first
result and whose weather and forecast fetches both succeed, and after a
startup geolocation success whose two fetches succeed, the stored
coordinates, displayed weather and displayed forecast all originate from
that same trigger.  A transition whose fetch fails after storing new
coordinates can violate the invariant (see the counterexample). -/
theorem c7_consistent_after_success (env : SearchEnv) (g : GhostState)
    (gg : Geo) (rest : List Geo) (wd : WeatherData) (fd : ForecastData)
    (lat lon : Rat)
    (h1 : env.geoResult = Except.ok (gg :: rest))
    (h2 : env.weatherResult = Except.ok wd)
    (h3 : env.forecastResult = Except.ok fd) :
    coordsConsistent (handleSearchG env g).1 = true ∧
    coordsConsistent (startupG (GeoOutcome.success lat lon) (Except.ok wd)
      (Except.ok fd) g).1 = true := by
  obtain ⟨geo, wres, fres⟩ := env
  simp only at h1 h2 h3
  subst h1
  subst h2
  subst h3
  constructor
  · simp [coordsConsistent, handleSearchG, fetchWeatherG, fetchForecastG,
      fetchWeather, fetchForecast]
  · simp [coordsConsistent, startupG, fetchWeatherG, fetchForecastG,
      fetchWeather, fetchForecast]

/-- C7 witness: the amended consistency theorem applied to a concrete
all-successful search and a concrete all-successful startup. -/
theorem c7_consistent_after_success_witness :
    (searchEnvParisOk.geoResult = Except.ok (geoParis :: []) ∧
     searchEnvParisOk.weatherResult = Except.ok sampleWeather ∧
     searchEnvParisOk.forecastResult = Except.ok sampleForecast) ∧
    (coordsConsistent (handleSearchG searchEnvParisOk initialGhost).1 = true ∧
     coordsConsistent (startupG (GeoOutcome.success (mkRat 525 10) (mkRat 134 10))
       (Except.ok sampleWeather) (Except.ok sampleForecast) initialGhost).1 = true) :=
  ⟨⟨rfl, rfl, rfl⟩,
    c7_consistent_after_success searchEnvParisOk initialGhost geoParis []
      sampleWeather sampleForecast (mkRat 525 10) (mkRat 134 10) rfl rfl rfl⟩

/-- C3: for every forecast list of 40 entries, the rendered strip is
exactly the entries at indices 0, 8, 16, 24, 32, in that order — 5
entries. -/
theorem c3_forecast_strip_subsample (l : List ForecastEntry)
    (h : l.length = 40) :
    forecastStrip l = [0, 8, 16, 24, 32].filterMap (fun i => l.get? i) ∧
    (forecastStrip l).length = 5 := by
  rcases l with _ | ⟨a0, l⟩
  · simp at h
  rcases l with _ | ⟨a1, l⟩
  · simp at h
  rcases l with _ | ⟨a2, l⟩
  · simp at h
  rcases l with _ | ⟨a3, l⟩
  · simp at h
  rcases l with _ | ⟨a4, l⟩
  · simp at h
  rcases l with _ | ⟨a5, l⟩
  · simp at h
  rcases l with _ | ⟨a6, l⟩
  · simp at h
  rcases l with _ | ⟨a7, l⟩
  · simp at h
  rcases l with _ | ⟨a8, l⟩
  · simp at h
  rcases l with _ | ⟨a9, l⟩
  · simp at h
  rcases l with _ | ⟨a10, l⟩
  · simp at h
  rcases l with _ | ⟨a11, l⟩
  · simp at h
  rcases l with _ | ⟨a12, l⟩
  · simp at h
  rcases l with _ | ⟨a13, l⟩
  · simp at h
  rcases l with _ | ⟨a14, l⟩
  · simp at h
  rcases l with _ | ⟨a15, l⟩
  · simp at h
  rcases l with _ | ⟨a16, l⟩
  · simp at h
  rcases l with _ | ⟨a17, l⟩
  · simp at h
  rcases l with _ | ⟨a18, l⟩
  · simp at h
  rcases l with _ | ⟨a19, l⟩
  · simp at h
  rcases l with _ | ⟨a20, l⟩
  · simp at h
  rcases l with _ | ⟨a21, l⟩
  · simp at h
  rcases l with _ | ⟨a22, l⟩
  · simp at h
  rcases l with _ | ⟨a23, l⟩
  · simp at h
  rcases l with _ | ⟨a24, l⟩
  · simp at h
  rcases l with _ | ⟨a25, l⟩
  · simp at h
  rcases l with _ | ⟨a26, l⟩
  · simp at h
  rcases l with _ | ⟨a27, l⟩
  · simp at h
  rcases l with _ | ⟨a28, l⟩
  · simp at h
  rcases l with _ | ⟨a29, l⟩
  · simp at h
  rcases l with _ | ⟨a30, l⟩
  · simp at h
  rcases l with _ | ⟨a31, l⟩
  · simp at h
  rcases l with _ | ⟨a32, l⟩
  · simp at h
  rcases l with _ | ⟨a33, l⟩
  · simp at h
  rcases l with _ | ⟨a34, l⟩
  · simp at h
  rcases l with _ | ⟨a35, l⟩
  · simp at h
  rcases l with _ | ⟨a36, l⟩
  · simp at h
  rcases l with _ | ⟨a37, l⟩
  · simp at h
  rcases l with _ | ⟨a38, l⟩
  · simp at h
  rcases l with _ | ⟨a39, l⟩
  · simp at h
  rcases l with _ | ⟨a40, l⟩
  · constructor
    · simp [forecastStrip, List.enum, List.enumFrom, List.filter, List.filterMap, List.get?]
    · simp [forecastStrip, List.enum, List.enumFrom, List.filter]
  · simp at h

/-- C3 witness: the subsampling theorem applied to a concrete 40-entry
list. -/
theorem c3_forecast_strip_subsample_witness :
    (List.replicate 40 sampleEntry).length = 40 ∧
    (forecastStrip (List.replicate 40 sampleEntry) =
        [0, 8, 16, 24, 32].filterMap (fun i => (List.replicate 40 sampleEntry).get? i) ∧
     (forecastStrip (List.replicate 40 sampleEntry)).length = 5) :=
  ⟨rfl, c3_forecast_strip_subsample (List.replicate 40 sampleEntry) rfl⟩

end WeatherApp
